import Mathlib

/-!
Shallow embedding of the auto-faucet repository: the `Validate` and
`Strings` helper namespaces and the `BrowsingSession` class
(constructor, `run`, `login`, `solveCaptchas`) from
`src/obj/BrowsingSession.ts`.

External collaborators (puppeteer pages, the CAPTCHA solving library,
the network) are modelled as explicit environments: each call that can
succeed or fail at the browser boundary is a boolean or `Except`-valued
field of an environment record, and the promise executor of `login` is
embedded as the ordered list of settlement attempts it makes, with
JavaScript's first-settlement-wins rule expressed by `attempt` /
`settleFold`.
-/

namespace AutoFaucet

/-- A JavaScript string-valued slot: a proper string, or `null`, or
`undefined` (the three cases `Validate.nonNullEmpty` distinguishes). -/
inductive JSVal where
  | jsNull
  | jsUndefined
  | str (s : String)
deriving DecidableEq

namespace Validate

/-- Embedding of `Validate.nonNullEmpty` (src/namespaces/Validate.ts):
returns false as soon as one value is `null`, `undefined` or the empty
string, true otherwise. -/
def nonNullEmpty (values : List JSVal) : Bool :=
  values.all fun value =>
    !(value == JSVal.jsNull || value == JSVal.jsUndefined || value == JSVal.str "")

end Validate

namespace Strings

/-- Whether a key string (given as its characters) is the canonical
decimal rendering of an array index, which is the only way a JavaScript
property lookup `args[key]` on an array reaches an element: every
character is a digit and there is no leading zero (except for the
one-digit key `0` itself). -/
def canonicalIndexKey (key : List Char) : Bool :=
  match key with
  | [] => false
  | c :: rest => c.isDigit && rest.all Char.isDigit && (c ≠ '0' || rest.isEmpty)

/-- The numeric value of a decimal digit string. -/
def digitsVal (key : List Char) : Nat :=
  key.foldl (fun n c => n * 10 + (c.toNat - 48)) 0

/-- The argument lookup performed by the replacement callback of
`Strings.format` (src/namespaces/Strings.ts): the captured digit string
indexes the argument array; JavaScript property lookup finds an element
only when the key is the canonical decimal rendering of an index in
range, and the whole match (the braces included) is kept otherwise. -/
def lookupArg (args : List String) (key : List Char) : List Char :=
  if canonicalIndexKey key then
    match args.get? (digitsVal key) with
    | some a => a.data
    | none => '\x7b' :: (key ++ ['\x7d'])
  else '\x7b' :: (key ++ ['\x7d'])

/-- One left-to-right scan of the template, as the global regex
replacement of `Strings.format` performs it: at an opening brace
followed by one or more digits and a closing brace, the whole match is
replaced via `lookupArg` and the scan resumes after the closing brace;
any other character is copied and the scan advances one position.
Replaced text is spliced verbatim and never rescanned, exactly as
`String.replace` with a callback does. The fuel argument (instantiated
with the template length, which one scan never exceeds since every
step consumes at least one character) makes the recursion structural. -/
def formatCore (args : List String) : Nat → List Char → List Char
  | _, [] => []
  | 0, l => l
  | fuel + 1, c :: rest =>
    if c = '\x7b' then
      match rest.takeWhile Char.isDigit, rest.dropWhile Char.isDigit with
      | [], _ => c :: formatCore args fuel rest
      | ds, '\x7d' :: tail => lookupArg args ds ++ formatCore args fuel tail
      | _, _ => c :: formatCore args fuel rest
    else c :: formatCore args fuel rest

/-- Embedding of `Strings.format` (src/namespaces/Strings.ts): replaces
every `\x7b<digits>\x7d` occurrence of the template by the argument the
digits index, keeping the occurrence itself when the lookup yields no
defined argument. -/
def format (str : String) (args : List String) : String :=
  String.mk (formatCore args str.data.length str.data)

end Strings

/-- The log levels accepted by the module-level `log` helper of
src/obj/BrowsingSession.ts. -/
inductive LogLevel where
  | info
  | warn
  | error
deriving DecidableEq

/-- One emission through the `log` helper: the message, the `from`
source tag and the optional level. The wall-clock time is ambient
(`new Date()`), so it is a parameter of `logLine`, not of the entry. -/
structure LogEntry where
  message : String
  source : String
  level : Option LogLevel
deriving DecidableEq

/-- The module-level template `basicLogFormat` of
src/obj/BrowsingSession.ts. -/
def basicLogFormat : String := "[BrowsingSession-\x7b0\x7d] [\x7b1\x7d] [\x7b2\x7d] \x7b3\x7d"

/-- The line the `log` helper of src/obj/BrowsingSession.ts writes for a
message, source and level at a given wall-clock time string: `WARN` and
`ERROR` have their own switch cases, everything else (including an
absent level) falls to the default `LOG` case. -/
def logLine (message source : String) (level : Option LogLevel) (time : String) : String :=
  match level with
  | some LogLevel.warn => Strings.format basicLogFormat ["WARN", time, source, message]
  | some LogLevel.error => Strings.format basicLogFormat ["ERROR", time, source, message]
  | _ => Strings.format basicLogFormat ["LOG", time, source, message]

/-- Abstract handle for a puppeteer `Browser` (external collaborator,
never inspected by the repository's code). -/
structure Browser where
deriving DecidableEq

/-- Abstract handle for a puppeteer `Page` (external collaborator,
never inspected by the repository's code). -/
structure Page where
deriving DecidableEq

/-- Abstract stand-in for `SolveRecaptchasResult` of
puppeteer-extra-plugin-recaptcha: the code only ever tests whether the
value is `undefined`, so its content is irrelevant. -/
structure SolveRecaptchasResult where
deriving DecidableEq

/-- The `CaptchaOptions` interface of src/obj/BrowsingSession.ts. The
`id` field is declared as a string union but flows through untyped
checks, so it is carried as a `JSVal`. -/
structure CaptchaOptions where
  id : JSVal
  token : JSVal
  visualFeedback : Option Bool
deriving DecidableEq

/-- The `LoginOptions` interface of src/obj/BrowsingSession.ts. -/
structure LoginOptions where
  username : JSVal
  password : JSVal
deriving DecidableEq

/-- The `LoginResults` string union of src/obj/BrowsingSession.ts. -/
inductive LoginResults where
  | LOGIN_SUCCESS
  | USERNAME_FIELD_RELATED
  | PASSWORD_FIELD_RELATED
  | CAPTCHA_FIELD_RELATED
  | INVALID_CREDENTIALS
  | PAGE_OTHER_ERROR
deriving DecidableEq

/-- The string a `LoginResults` value denotes. -/
def LoginResults.text : LoginResults → String
  | .LOGIN_SUCCESS => "LOGIN_SUCCESS"
  | .USERNAME_FIELD_RELATED => "USERNAME_FIELD_RELATED"
  | .PASSWORD_FIELD_RELATED => "PASSWORD_FIELD_RELATED"
  | .CAPTCHA_FIELD_RELATED => "CAPTCHA_FIELD_RELATED"
  | .INVALID_CREDENTIALS => "INVALID_CREDENTIALS"
  | .PAGE_OTHER_ERROR => "PAGE_OTHER_ERROR"

/-- A settlement of the promise built by `login`: the executor only ever
resolves with a `LoginResults` value and rejects with a plain string. -/
inductive Settle where
  | resolved (r : LoginResults)
  | rejected (reason : String)
deriving DecidableEq

/-- JavaScript promise settlement: once a promise is settled, any further
`resolve` or `reject` call is a no-op. -/
def attempt : Option Settle → Settle → Option Settle
  | some s, _ => some s
  | none, s => some s

/-- The settlement a promise commits after its executor has made the
given ordered list of `resolve` / `reject` attempts: the first one wins. -/
def settleFold (attempts : List Settle) : Option Settle :=
  attempts.foldl attempt none

/-- The fields of the `BrowsingSession` class of
src/obj/BrowsingSession.ts. -/
structure BrowsingSession where
  loginOptions : LoginOptions
  session : Option Browser
  page : Option Page
  captchaOptions : Option CaptchaOptions
  debug : Bool
deriving DecidableEq

/-- Embedding of `BrowsingSession.solveCaptchas`: dispatch on the
provider id exactly as the `switch` statement does (strict string
comparison, first `capmonster`, then `2captcha`, then the default).
`solveRecaptchasOutcome` stands for the behaviour of the external
`page.solveRecaptchas()` call; a `null` page short-circuits the optional
chain so the local `result` stays `undefined`. Returns the result
(`none` = `undefined`) and the log entries emitted, in order. -/
def BrowsingSession.solveCaptchas (page : Option Page) (captchaOptions : Option CaptchaOptions)
    (solveRecaptchasOutcome : Except String SolveRecaptchasResult) :
    Option SolveRecaptchasResult × List LogEntry :=
  match captchaOptions with
  | none => (none, [])
  | some opts =>
    if opts.id = JSVal.str "capmonster" then
      let solvingLog : LogEntry := ⟨"Solving captcha with CapMonster", "CaptchaSolver", some LogLevel.info⟩
      match page, solveRecaptchasOutcome with
      | none, _ => (none, [solvingLog])
      | some _, Except.ok res => (some res, [solvingLog])
      | some _, Except.error err => (none, [solvingLog, ⟨err, "CaptchaSolver", some LogLevel.error⟩])
    else if opts.id = JSVal.str "2captcha" then
      (none, [])
    else
      (none, [⟨"Invalid captcha provider specified", "CaptchaSolver", some LogLevel.error⟩])

/-- The text JavaScript produces for `this.captchaOptions?.id` inside a
template concatenation: `undefined` when the options are absent, the
printed form of the id otherwise. -/
def optionalIdText (captchaOptions : Option CaptchaOptions) : String :=
  match captchaOptions with
  | none => "undefined"
  | some opts =>
    match opts.id with
    | JSVal.jsNull => "null"
    | JSVal.jsUndefined => "undefined"
    | JSVal.str s => s

/-- The browser-boundary steps `login` drives, in source order. -/
inductive LoginStep where
  | navigationWait
  | usernameEntry
  | passwordEntry
  | captchaSolve
  | formSubmit
  | urlInspect
deriving DecidableEq

/-- Outcome of each external interaction `login` performs: whether the
initial `waitForNavigation` reaches network-idle, whether the click+type
pair on each credential field succeeds, what `page.solveRecaptchas()`
would do, whether the submit click plus navigation wait succeeds, and
the URL `page.url()` reports afterwards. -/
structure LoginEnv where
  waitNavOk : Bool
  usernameFieldOk : Bool
  passwordFieldOk : Bool
  solveRecaptchasOutcome : Except String SolveRecaptchasResult
  submitOk : Bool
  urlAfterSubmit : String

/-- What one execution of `login` produces: the object state afterwards
(the method assigns no field), the ordered settlement attempts its
executor makes on the returned promise, the browser-boundary steps it
drove, and the log entries it emitted. -/
structure LoginOutput where
  state : BrowsingSession
  attempts : List Settle
  steps : List LoginStep
  logs : List LogEntry

/-- Embedding of `BrowsingSession.login`. With no page the optional
chains short-circuit and the executor finishes without any settlement
attempt. Otherwise: a failed initial navigation wait rejects
`PAGE_OTHER_ERROR` through the outer catch; else the callback rejects
`USERNAME_FIELD_RELATED` on a username click/type failure but KEEPS
GOING, likewise `PASSWORD_FIELD_RELATED`, then calls `solveCaptchas`,
rejects the ad-hoc string `Failed to solve captcha` when its result is
`undefined` (still continuing, even logging the success line), rejects
`CAPTCHA_FIELD_RELATED` when the submit click / navigation pair fails,
resolves `LOGIN_SUCCESS` when the final URL is the dashboard URL, and
unconditionally ends with a `reject` of `INVALID_CREDENTIALS`. -/
def BrowsingSession.login (st : BrowsingSession) (env : LoginEnv) : LoginOutput :=
  match st.page with
  | none => ⟨st, [], [], []⟩
  | some _ =>
    if env.waitNavOk then
      let solved := BrowsingSession.solveCaptchas st.page st.captchaOptions env.solveRecaptchasOutcome
      let usernameAttempts : List Settle :=
        if env.usernameFieldOk then [] else [Settle.rejected "USERNAME_FIELD_RELATED"]
      let passwordAttempts : List Settle :=
        if env.passwordFieldOk then [] else [Settle.rejected "PASSWORD_FIELD_RELATED"]
      let captchaUndefinedAttempts : List Settle :=
        if solved.1.isNone then [Settle.rejected "Failed to solve captcha"] else []
      let submitAttempts : List Settle :=
        if env.submitOk then [] else [Settle.rejected "CAPTCHA_FIELD_RELATED"]
      let urlAttempts : List Settle :=
        if env.urlAfterSubmit = "https://autofaucet.org/dashboard" then
          [Settle.resolved LoginResults.LOGIN_SUCCESS]
        else []
      ⟨st,
        usernameAttempts ++ passwordAttempts ++ captchaUndefinedAttempts ++ submitAttempts ++
          urlAttempts ++ [Settle.rejected "INVALID_CREDENTIALS"],
        [LoginStep.navigationWait, LoginStep.usernameEntry, LoginStep.passwordEntry,
          LoginStep.captchaSolve, LoginStep.formSubmit, LoginStep.urlInspect],
        solved.2 ++
          [⟨"Successfully solved captcha! (Provider: " ++ optionalIdText st.captchaOptions ++ ")",
            "CaptchaSolver", some LogLevel.info⟩]⟩
    else
      ⟨st, [Settle.rejected "PAGE_OTHER_ERROR"], [LoginStep.navigationWait], []⟩

/-- The settlement the promise returned by `login` commits: the first
settlement attempt wins, later ones are no-ops. -/
def BrowsingSession.loginCommit (st : BrowsingSession) (env : LoginEnv) : Option Settle :=
  settleFold (st.login env).attempts

/-- Whether a settlement is one of the six members of the closed
`LoginResults` enumeration (whichever channel, `resolve` or `reject`,
carries it). -/
def isClosedOutcome : Settle → Bool
  | Settle.resolved _ => true
  | Settle.rejected reason =>
    reason == "USERNAME_FIELD_RELATED" || reason == "PASSWORD_FIELD_RELATED" ||
    reason == "CAPTCHA_FIELD_RELATED" || reason == "INVALID_CREDENTIALS" ||
    reason == "PAGE_OTHER_ERROR" || reason == "LOGIN_SUCCESS"

/-- Outcome of the external calls `run` performs beyond launching and
opening (always assumed to hand back handles): whether `page.goto`
succeeds, and the login environment for the delegated `login` call. -/
structure RunEnv where
  gotoResult : Except String Unit
  loginEnv : LoginEnv

/-- What one execution of `run` produces: the object state afterwards
and the log entries emitted, in order. -/
structure RunOutput where
  state : BrowsingSession
  logs : List LogEntry

/-- Embedding of `BrowsingSession.run`: logs the start, launches the
browser and stores the handle, logs again, opens a page and stores the
handle, navigates to the dashboard URL; a navigation failure is logged
through the outer catch, otherwise `login` runs and its committed
settlement is logged (resolution through the result line, rejection
through the error handler; a never-settling promise logs nothing). -/
def BrowsingSession.run (st : BrowsingSession) (env : RunEnv) : RunOutput :=
  let startLogs : List LogEntry :=
    [⟨"Starting browsing session", "BrowsingSession", some LogLevel.info⟩,
     ⟨"Session started, continuing to open page", "BrowsingSession", some LogLevel.info⟩]
  let st1 : BrowsingSession := { st with session := some ⟨⟩, page := some ⟨⟩ }
  match env.gotoResult with
  | Except.error err => ⟨st1, startLogs ++ [⟨err, "Page", some LogLevel.error⟩]⟩
  | Except.ok _ =>
    let out := st1.login env.loginEnv
    let resultLogs : List LogEntry :=
      match settleFold out.attempts with
      | some (Settle.resolved r) =>
        [⟨"Result for login attempt: " ++ r.text, "Login", some LogLevel.info⟩]
      | some (Settle.rejected reason) => [⟨reason, "Login", some LogLevel.error⟩]
      | none => []
    ⟨out.state, startLogs ++ out.logs ++ resultLogs⟩

/-- The `extra.use(RecaptchaPlugin(...))` registration the constructor
performs when the captcha options validate: the provider identity and
token it passes, and the visual-feedback flag defaulted to false. -/
structure PluginRegistration where
  id : JSVal
  token : JSVal
  visualFeedback : Bool
deriving DecidableEq

/-- What constructing a `BrowsingSession` produces: the field state, the
plugin registration performed (if any), whether `run` was invoked
(launching the browser is its first action, so `browserLaunched` tracks
it), and the constructor's own log entries in order. -/
structure ConstructorOutput where
  state : BrowsingSession
  pluginRegistration : Option PluginRegistration
  runInvoked : Bool
  browserLaunched : Bool
  logs : List LogEntry

/-- Embedding of the `BrowsingSession` constructor: fields are set to
their defaults; when captcha options are present they are validated
first — invalid ones are logged and the constructor returns before any
plugin registration and before login validation — and valid ones are
registered and logged; then the login options are validated — invalid
ones are logged and the constructor returns without calling `run`;
valid ones are logged and `run` is invoked. The constructor never
throws: it is a total function. -/
def BrowsingSession.construct (login : LoginOptions) (captcha : Option CaptchaOptions)
    (debug : Option Bool) : ConstructorOutput :=
  let st : BrowsingSession := ⟨login, none, none, captcha, debug.getD false⟩
  match captcha with
  | some c =>
    if Validate.nonNullEmpty [c.id, c.token] then
      let reg : Option PluginRegistration := some ⟨c.id, c.token, c.visualFeedback.getD false⟩
      let captchaLogs : List LogEntry :=
        [⟨"Captcha options set, continuing to validate login options", "CaptchaSolver",
          some LogLevel.info⟩]
      if Validate.nonNullEmpty [login.username, login.password] then
        ⟨st, reg, true, true,
          captchaLogs ++
            [⟨"Login options set, continuing to run browsing session", "Login",
              some LogLevel.info⟩]⟩
      else
        ⟨st, reg, false, false,
          captchaLogs ++ [⟨"Invalid login options provided", "Login", some LogLevel.error⟩]⟩
    else
      ⟨st, none, false, false,
        [⟨"Invalid captcha options provided", "CaptchaSolver", some LogLevel.error⟩]⟩
  | none =>
    if Validate.nonNullEmpty [login.username, login.password] then
      ⟨st, none, true, true,
        [⟨"Login options set, continuing to run browsing session", "Login", some LogLevel.info⟩]⟩
    else
      ⟨st, none, false, false,
        [⟨"Invalid login options provided", "Login", some LogLevel.error⟩]⟩

/-! ## Helper lemmas -/

/-- Folding further settlement attempts over an already settled promise
never changes the settlement. -/
theorem foldl_attempt_some (l : List Settle) (s : Settle) :
    l.foldl attempt (some s) = some s := by
  induction l with
  | nil => rfl
  | cons a t ih => simpa [attempt] using ih

/-- First-settlement-wins folding commits exactly the first attempt of
the list. -/
theorem settleFold_eq_head (l : List Settle) : settleFold l = l.head? := by
  cases l with
  | nil => rfl
  | cons a t => simp [settleFold, List.foldl, attempt, foldl_attempt_some]

/-- Membership in a conditional singleton whose positive branch is empty. -/
theorem mem_if_nil_left {p : Prop} [Decidable p] {x c : Settle}
    (h : c ∈ if p then ([] : List Settle) else [x]) : c = x := by
  split at h <;> simp_all

/-- Membership in a conditional singleton whose negative branch is empty. -/
theorem mem_if_nil_right {p : Prop} [Decidable p] {x c : Settle}
    (h : c ∈ if p then [x] else ([] : List Settle)) : c = x := by
  split at h <;> simp_all

/-- The body of `login` assigns no field: the state it hands back is the
state it received. -/
theorem login_state_eq (st : BrowsingSession) (env : LoginEnv) :
    (st.login env).state = st := by
  rcases hp : st.page with _ | p <;>
    cases hw : env.waitNavOk <;>
      simp [BrowsingSession.login, hp, hw]

/-- With a page present the executor of `login` always makes at least
one settlement attempt (the trailing invalid-credentials rejection, or
the page-error rejection). -/
theorem login_attempts_ne_nil (st : BrowsingSession) (env : LoginEnv)
    (hpage : st.page.isSome = true) : (st.login env).attempts ≠ [] := by
  rcases hp : st.page with _ | p
  · rw [hp] at hpage; simp at hpage
  · cases hw : env.waitNavOk <;> simp [BrowsingSession.login, hp, hw]

/-- Every settlement the executor of `login` ever attempts is one of the
six members of the closed enumeration, or the ad-hoc rejection string
`Failed to solve captcha`. -/
theorem login_attempts_mem (st : BrowsingSession) (env : LoginEnv) (c : Settle)
    (hc : c ∈ (st.login env).attempts) :
    isClosedOutcome c = true ∨ c = Settle.rejected "Failed to solve captcha" := by
  rcases hp : st.page with _ | p
  · simp [BrowsingSession.login, hp] at hc
  · cases hw : env.waitNavOk <;> simp only [BrowsingSession.login, hp, hw] at hc
    · simp at hc; subst hc; left; rfl
    · simp only [if_true, List.mem_append, List.mem_singleton] at hc
      rcases hc with ((((h | h) | h) | h) | h) | h
      · rw [mem_if_nil_left h]; left; rfl
      · rw [mem_if_nil_left h]; left; rfl
      · rw [mem_if_nil_right h]; right; rfl
      · rw [mem_if_nil_left h]; left; rfl
      · rw [mem_if_nil_right h]; left; rfl
      · subst h; left; rfl

/-- With the template `basicLogFormat`, `Strings.format` splices its
four arguments between the literal pieces of the log line. -/
theorem format_basicLogFormat (a b c d : String) :
    Strings.format basicLogFormat [a, b, c, d] =
      "[BrowsingSession-" ++ (a ++ ("] [" ++ (b ++ ("] [" ++ (c ++ ("] " ++ (d ++ ""))))))) := rfl

/-! ## Claims -/

/-- Claim C1, amended. As stated the claim is refuted by
`login_closed_enumeration_cex`: when both credential-field interactions
succeed but CAPTCHA solving yields an absent result, the first (hence
committed) settlement is the rejection string `Failed to solve captcha`,
which is outside the closed enumeration. What does hold: for every login
attempt with a page, the promise commits exactly one settlement — the
first attempt wins, JavaScript promise semantics making every later
`resolve`/`reject` a no-op — and that settlement is a member of the
closed enumeration or the ad-hoc captcha-failure rejection. -/
theorem login_commits_one_outcome (st : BrowsingSession) (env : LoginEnv)
    (hpage : st.page.isSome = true) :
    (st.loginCommit env).isSome = true ∧
    st.loginCommit env = (st.login env).attempts.head? ∧
    (∀ c, st.loginCommit env = some c →
      isClosedOutcome c = true ∨ c = Settle.rejected "Failed to solve captcha") := by
  have hhead : st.loginCommit env = (st.login env).attempts.head? :=
    settleFold_eq_head _
  refine ⟨?_, hhead, ?_⟩
  · rw [hhead]
    have := login_attempts_ne_nil st env hpage
    rcases h : (st.login env).attempts with _ | ⟨a, t⟩
    · exact absurd h this
    · rfl
  · intro c hc
    rw [hhead] at hc
    have hmem : c ∈ (st.login env).attempts := by
      rcases h : (st.login env).attempts with _ | ⟨a, t⟩
      · rw [h] at hc; cases hc
      · rw [h] at hc; simp at hc; subst hc; exact List.mem_cons_self a t
    exact login_attempts_mem st env c hmem

/-- Claim C1 witness: the theorem applied to a concrete session (valid
credentials, capmonster options, page open) and a concrete environment
in which everything succeeds. -/
theorem login_commits_one_outcome_witness :
    (BrowsingSession.loginCommit
        ⟨⟨JSVal.str "user", JSVal.str "pass"⟩, none, some ⟨⟩,
          some ⟨JSVal.str "capmonster", JSVal.str "tok", none⟩, false⟩
        ⟨true, true, true, Except.ok ⟨⟩, true, "https://autofaucet.org/dashboard"⟩).isSome = true ∧
    BrowsingSession.loginCommit
        ⟨⟨JSVal.str "user", JSVal.str "pass"⟩, none, some ⟨⟩,
          some ⟨JSVal.str "capmonster", JSVal.str "tok", none⟩, false⟩
        ⟨true, true, true, Except.ok ⟨⟩, true, "https://autofaucet.org/dashboard"⟩ =
      (BrowsingSession.login
        ⟨⟨JSVal.str "user", JSVal.str "pass"⟩, none, some ⟨⟩,
          some ⟨JSVal.str "capmonster", JSVal.str "tok", none⟩, false⟩
        ⟨true, true, true, Except.ok ⟨⟩, true, "https://autofaucet.org/dashboard"⟩).attempts.head? ∧
    (∀ c, BrowsingSession.loginCommit
        ⟨⟨JSVal.str "user", JSVal.str "pass"⟩, none, some ⟨⟩,
          some ⟨JSVal.str "capmonster", JSVal.str "tok", none⟩, false⟩
        ⟨true, true, true, Except.ok ⟨⟩, true, "https://autofaucet.org/dashboard"⟩ = some c →
      isClosedOutcome c = true ∨ c = Settle.rejected "Failed to solve captcha") :=
  login_commits_one_outcome
    ⟨⟨JSVal.str "user", JSVal.str "pass"⟩, none, some ⟨⟩,
      some ⟨JSVal.str "capmonster", JSVal.str "tok", none⟩, false⟩
    ⟨true, true, true, Except.ok ⟨⟩, true, "https://autofaucet.org/dashboard"⟩ rfl

/-- Claim C1 counterexample: with no CAPTCHA options configured (so
`solveCaptchas` yields an absent result) and every field interaction
succeeding, the committed settlement is the rejection `Failed to solve
captcha`, which is not a member of the closed outcome enumeration. -/
theorem login_closed_enumeration_cex :
    BrowsingSession.loginCommit
        ⟨⟨JSVal.str "user", JSVal.str "pass"⟩, none, some ⟨⟩, none, false⟩
        ⟨true, true, true, Except.ok ⟨⟩, true, "https://autofaucet.org/dashboard"⟩ =
      some (Settle.rejected "Failed to solve captcha") ∧
    isClosedOutcome (Settle.rejected "Failed to solve captcha") = false := by
  decide

/-- Claim C2, evidence of the code bug the spec itself flags: when the
username field interaction fails (and everything else succeeds), the
committed outcome is indeed `USERNAME_FIELD_RELATED` - the first
rejection wins - but the sequencer still proceeds to the password-entry
step, which the claim (and the spec) says it must not do. -/
theorem login_username_failure_proceeds_to_password :
    BrowsingSession.loginCommit
        ⟨⟨JSVal.str "user", JSVal.str "pass"⟩, none, some ⟨⟩,
          some ⟨JSVal.str "capmonster", JSVal.str "tok", none⟩, false⟩
        ⟨true, false, true, Except.ok ⟨⟩, true, "https://autofaucet.org/login"⟩ =
      some (Settle.rejected "USERNAME_FIELD_RELATED") ∧
    LoginStep.passwordEntry ∈
      (BrowsingSession.login
        ⟨⟨JSVal.str "user", JSVal.str "pass"⟩, none, some ⟨⟩,
          some ⟨JSVal.str "capmonster", JSVal.str "tok", none⟩, false⟩
        ⟨true, false, true, Except.ok ⟨⟩, true, "https://autofaucet.org/login"⟩).steps := by
  decide

/-- Claim C3: when the page is open, the initial navigation wait, both
credential-field interactions and the form submission succeed, CAPTCHA
solving yields a present result, and the URL after submission is the
dashboard URL, the login commits `LOGIN_SUCCESS`. -/
theorem login_dashboard_url_success (st : BrowsingSession) (env : LoginEnv)
    (hpage : st.page.isSome = true) (hnav : env.waitNavOk = true)
    (huser : env.usernameFieldOk = true) (hpass : env.passwordFieldOk = true)
    (hcaptcha : (BrowsingSession.solveCaptchas st.page st.captchaOptions
        env.solveRecaptchasOutcome).1.isSome = true)
    (hsubmit : env.submitOk = true)
    (hurl : env.urlAfterSubmit = "https://autofaucet.org/dashboard") :
    st.loginCommit env = some (Settle.resolved LoginResults.LOGIN_SUCCESS) := by
  rcases hp : st.page with _ | p
  · rw [hp] at hpage; simp at hpage
  · rw [hp] at hcaptcha
    rw [BrowsingSession.loginCommit, settleFold_eq_head]
    rcases hres : (BrowsingSession.solveCaptchas (some p) st.captchaOptions
        env.solveRecaptchasOutcome).1 with _ | r
    · rw [hres] at hcaptcha; simp at hcaptcha
    · simp [BrowsingSession.login, hp, hnav, huser, hpass, hsubmit, hurl, hres]

/-- Claim C3 witness: the theorem applied to a concrete session and a
concrete all-success environment ending on the dashboard URL. -/
theorem login_dashboard_url_success_witness :
    BrowsingSession.loginCommit
        ⟨⟨JSVal.str "user", JSVal.str "pass"⟩, none, some ⟨⟩,
          some ⟨JSVal.str "capmonster", JSVal.str "tok", none⟩, false⟩
        ⟨true, true, true, Except.ok ⟨⟩, true, "https://autofaucet.org/dashboard"⟩ =
      some (Settle.resolved LoginResults.LOGIN_SUCCESS) :=
  login_dashboard_url_success
    ⟨⟨JSVal.str "user", JSVal.str "pass"⟩, none, some ⟨⟩,
      some ⟨JSVal.str "capmonster", JSVal.str "tok", none⟩, false⟩
    ⟨true, true, true, Except.ok ⟨⟩, true, "https://autofaucet.org/dashboard"⟩
    rfl rfl rfl rfl (by decide) rfl rfl

/-- Claim C4: under the same success hypotheses as C3 but with a final
URL different from the dashboard URL, the login commits the rejection
`INVALID_CREDENTIALS`. -/
theorem login_other_url_invalid_credentials (st : BrowsingSession) (env : LoginEnv)
    (hpage : st.page.isSome = true) (hnav : env.waitNavOk = true)
    (huser : env.usernameFieldOk = true) (hpass : env.passwordFieldOk = true)
    (hcaptcha : (BrowsingSession.solveCaptchas st.page st.captchaOptions
        env.solveRecaptchasOutcome).1.isSome = true)
    (hsubmit : env.submitOk = true)
    (hurl : env.urlAfterSubmit ≠ "https://autofaucet.org/dashboard") :
    st.loginCommit env = some (Settle.rejected "INVALID_CREDENTIALS") := by
  rcases hp : st.page with _ | p
  · rw [hp] at hpage; simp at hpage
  · rw [hp] at hcaptcha
    rw [BrowsingSession.loginCommit, settleFold_eq_head]
    rcases hres : (BrowsingSession.solveCaptchas (some p) st.captchaOptions
        env.solveRecaptchasOutcome).1 with _ | r
    · rw [hres] at hcaptcha; simp at hcaptcha
    · simp [BrowsingSession.login, hp, hnav, huser, hpass, hsubmit, hurl, hres]

/-- Claim C4 witness: the theorem applied to a concrete session and a
concrete environment whose final URL is not the dashboard URL. -/
theorem login_other_url_invalid_credentials_witness :
    BrowsingSession.loginCommit
        ⟨⟨JSVal.str "user", JSVal.str "pass"⟩, none, some ⟨⟩,
          some ⟨JSVal.str "capmonster", JSVal.str "tok", none⟩, false⟩
        ⟨true, true, true, Except.ok ⟨⟩, true, "https://autofaucet.org/login?failed=1"⟩ =
      some (Settle.rejected "INVALID_CREDENTIALS") :=
  login_other_url_invalid_credentials
    ⟨⟨JSVal.str "user", JSVal.str "pass"⟩, none, some ⟨⟩,
      some ⟨JSVal.str "capmonster", JSVal.str "tok", none⟩, false⟩
    ⟨true, true, true, Except.ok ⟨⟩, true, "https://autofaucet.org/login?failed=1"⟩
    rfl rfl rfl rfl (by decide) rfl (by decide)

/-- Claim C5, amended. As stated the claim is refuted by
`construct_invalid_login_log_cex`: when the CAPTCHA options are present
and themselves invalid, the constructor returns at the earlier CAPTCHA
validation, so the invalid-login-options message is never logged. What
does hold: for every configuration with an invalid (empty, null or
undefined) username or password, `run` is never invoked and no browser
is launched, and whenever the CAPTCHA options - if present - pass their
validation, the constructor logs the invalid login options; the
constructor is total, so no exception reaches the caller. -/
theorem construct_invalid_login_aborts (lo : LoginOptions) (captcha : Option CaptchaOptions)
    (debug : Option Bool)
    (hbad : Validate.nonNullEmpty [lo.username, lo.password] = false) :
    (BrowsingSession.construct lo captcha debug).runInvoked = false ∧
    (BrowsingSession.construct lo captcha debug).browserLaunched = false ∧
    ((∀ c ∈ captcha, Validate.nonNullEmpty [c.id, c.token] = true) →
      (⟨"Invalid login options provided", "Login", some LogLevel.error⟩ : LogEntry) ∈
        (BrowsingSession.construct lo captcha debug).logs) := by
  rcases captcha with _ | c
  · simp [BrowsingSession.construct, hbad]
  · by_cases hc : Validate.nonNullEmpty [c.id, c.token] = true
    · simp [BrowsingSession.construct, hbad, hc]
    · simp [BrowsingSession.construct, hbad, hc]

/-- Claim C5 witness: the theorem applied to an empty username with no
CAPTCHA options. -/
theorem construct_invalid_login_aborts_witness :
    (BrowsingSession.construct ⟨JSVal.str "", JSVal.str "hunter2"⟩ none none).runInvoked = false ∧
    (BrowsingSession.construct ⟨JSVal.str "", JSVal.str "hunter2"⟩ none none).browserLaunched = false ∧
    ((∀ c ∈ (none : Option CaptchaOptions), Validate.nonNullEmpty [c.id, c.token] = true) →
      (⟨"Invalid login options provided", "Login", some LogLevel.error⟩ : LogEntry) ∈
        (BrowsingSession.construct ⟨JSVal.str "", JSVal.str "hunter2"⟩ none none).logs) :=
  construct_invalid_login_aborts ⟨JSVal.str "", JSVal.str "hunter2"⟩ none none (by decide)

/-- Claim C5 counterexample: an empty username together with CAPTCHA
options whose provider id is null; no browser is launched, but the
promised invalid-login-options log entry is absent (the constructor
returned at the CAPTCHA validation instead). -/
theorem construct_invalid_login_log_cex :
    (BrowsingSession.construct ⟨JSVal.str "", JSVal.str "hunter2"⟩
        (some ⟨JSVal.jsNull, JSVal.str "tok", none⟩) none).runInvoked = false ∧
    ¬((⟨"Invalid login options provided", "Login", some LogLevel.error⟩ : LogEntry) ∈
        (BrowsingSession.construct ⟨JSVal.str "", JSVal.str "hunter2"⟩
          (some ⟨JSVal.jsNull, JSVal.str "tok", none⟩) none).logs) := by
  decide

/-- Claim C6: for CAPTCHA options whose provider id or token is invalid
(empty, null or undefined), the constructor registers no plugin, never
invokes `run` (so no browser is launched), and its only log entry is
the invalid-captcha-options error. -/
theorem construct_invalid_captcha_aborts (lo : LoginOptions) (c : CaptchaOptions)
    (debug : Option Bool)
    (hbad : Validate.nonNullEmpty [c.id, c.token] = false) :
    (BrowsingSession.construct lo (some c) debug).pluginRegistration = none ∧
    (BrowsingSession.construct lo (some c) debug).runInvoked = false ∧
    (BrowsingSession.construct lo (some c) debug).browserLaunched = false ∧
    (BrowsingSession.construct lo (some c) debug).logs =
      [⟨"Invalid captcha options provided", "CaptchaSolver", some LogLevel.error⟩] := by
  simp [BrowsingSession.construct, hbad]

/-- Claim C6 witness: the theorem applied to valid credentials with an
empty CAPTCHA token. -/
theorem construct_invalid_captcha_aborts_witness :
    (BrowsingSession.construct ⟨JSVal.str "user", JSVal.str "pass"⟩
        (some ⟨JSVal.str "capmonster", JSVal.str "", none⟩) none).pluginRegistration = none ∧
    (BrowsingSession.construct ⟨JSVal.str "user", JSVal.str "pass"⟩
        (some ⟨JSVal.str "capmonster", JSVal.str "", none⟩) none).runInvoked = false ∧
    (BrowsingSession.construct ⟨JSVal.str "user", JSVal.str "pass"⟩
        (some ⟨JSVal.str "capmonster", JSVal.str "", none⟩) none).browserLaunched = false ∧
    (BrowsingSession.construct ⟨JSVal.str "user", JSVal.str "pass"⟩
        (some ⟨JSVal.str "capmonster", JSVal.str "", none⟩) none).logs =
      [⟨"Invalid captcha options provided", "CaptchaSolver", some LogLevel.error⟩] :=
  construct_invalid_captcha_aborts ⟨JSVal.str "user", JSVal.str "pass"⟩
    ⟨JSVal.str "capmonster", JSVal.str "", none⟩ none (by decide)

/-- Claim C7: for any provider id other than the implemented
`capmonster` branch, `solveCaptchas` returns an absent result (it is a
total function, so nothing is thrown); when the id is also not the
explicit not-yet-implemented `2captcha` branch, the default branch logs
the unsupported provider and nothing else. -/
theorem solveCaptchas_unsupported_absent (page : Option Page) (opts : CaptchaOptions)
    (outcome : Except String SolveRecaptchasResult)
    (hid : opts.id ≠ JSVal.str "capmonster") :
    (BrowsingSession.solveCaptchas page (some opts) outcome).1 = none ∧
    (opts.id ≠ JSVal.str "2captcha" →
      (BrowsingSession.solveCaptchas page (some opts) outcome).2 =
        [⟨"Invalid captcha provider specified", "CaptchaSolver", some LogLevel.error⟩]) := by
  constructor
  · by_cases h2 : opts.id = JSVal.str "2captcha" <;>
      simp [BrowsingSession.solveCaptchas, hid, h2]
  · intro h2
    simp [BrowsingSession.solveCaptchas, hid, h2]

/-- Claim C7 witness: the theorem applied to the unknown provider id
`anticaptcha`. -/
theorem solveCaptchas_unsupported_absent_witness :
    (BrowsingSession.solveCaptchas none
        (some ⟨JSVal.str "anticaptcha", JSVal.str "tok", none⟩) (Except.ok ⟨⟩)).1 = none ∧
    ((⟨JSVal.str "anticaptcha", JSVal.str "tok", none⟩ : CaptchaOptions).id ≠ JSVal.str "2captcha" →
      (BrowsingSession.solveCaptchas none
          (some ⟨JSVal.str "anticaptcha", JSVal.str "tok", none⟩) (Except.ok ⟨⟩)).2 =
        [⟨"Invalid captcha provider specified", "CaptchaSolver", some LogLevel.error⟩]) :=
  solveCaptchas_unsupported_absent none ⟨JSVal.str "anticaptcha", JSVal.str "tok", none⟩
    (Except.ok ⟨⟩) (by decide)

/-- Claim C8: every line the session's log function emits, for any
message, source, level and time, is
`[BrowsingSession-LEVEL] [time] [source] message`, where the level tag
is `WARN` for warn, `ERROR` for error, and `LOG` otherwise. -/
theorem log_line_shape (message source time : String) (level : Option LogLevel) :
    logLine message source level time =
      "[BrowsingSession-" ++
        (match level with
         | some LogLevel.warn => "WARN"
         | some LogLevel.error => "ERROR"
         | _ => "LOG") ++ "] [" ++ time ++ "] [" ++ source ++ "] " ++ message := by
  have key : ∀ x y z w : String,
      Strings.format basicLogFormat [x, y, z, w] =
        "[BrowsingSession-" ++ x ++ "] [" ++ y ++ "] [" ++ z ++ "] " ++ w := by
    intro x y z w
    rw [format_basicLogFormat]
    apply String.ext
    simp [String.data_append]
  match level with
  | some LogLevel.warn => exact key "WARN" time source message
  | some LogLevel.error => exact key "ERROR" time source message
  | some LogLevel.info => exact key "LOG" time source message
  | none => exact key "LOG" time source message

/-- Claim C9: neither `run` nor `login` modifies the session
configuration - the `loginOptions`, `captchaOptions` and `debug` fields
are the same after either operation as before it (`solveCaptchas` does
not even receive the object state, only the page and options values, so
it cannot modify the fields at all). -/
theorem session_configuration_immutable (st : BrowsingSession) (renv : RunEnv)
    (lenv : LoginEnv) :
    ((st.run renv).state.loginOptions = st.loginOptions ∧
     (st.run renv).state.captchaOptions = st.captchaOptions ∧
     (st.run renv).state.debug = st.debug) ∧
    ((st.login lenv).state.loginOptions = st.loginOptions ∧
     (st.login lenv).state.captchaOptions = st.captchaOptions ∧
     (st.login lenv).state.debug = st.debug) := by
  constructor
  · rcases hg : renv.gotoResult with e | u <;>
      simp [BrowsingSession.run, hg, login_state_eq]
  · simp [login_state_eq st lenv]

/-- Claim C10: `Validate.nonNullEmpty` returns true exactly when every
argument is neither null, nor undefined, nor the empty string; in
particular it returns true on the empty argument list. -/
theorem nonNullEmpty_iff_and_nil (values : List JSVal) :
    (Validate.nonNullEmpty values = true ↔
      ∀ v ∈ values, v ≠ JSVal.jsNull ∧ v ≠ JSVal.jsUndefined ∧ v ≠ JSVal.str "") ∧
    Validate.nonNullEmpty [] = true := by
  constructor
  · simp [Validate.nonNullEmpty, List.all_eq_true, not_or, and_assoc]
  · rfl

end AutoFaucet
